import Mathlib

/-!
Verification of the cupidarchive reader core: a shallow embedding of
`src/arc_reader.c` (format detection, open-by-path, open-by-stream,
entry release) together with the stream and filter layers it relies on.
Byte sequences are `List Nat`; machine positions and limits are `Nat`.
The stream layer (`arc_stream.c`) and the filter implementations
(`arc_filter.c`) are not part of the available sources, so those
operations are modelled from the specification; everything in
`arc_reader.c` is translated directly from that file.
-/

set_option autoImplicit false
set_option maxRecDepth 100000

namespace CupidArchive

/-- A decompression backend: a total function from the compressed byte
sequence of the underlying stream to the decompressed byte sequence. -/
abbrev Decoder := List Nat → List Nat

/-- Modelled from the spec: the Bounded Stream of `arc_stream.c` (not in
the available sources).  `data` is the full backing byte sequence, `pos`
the current logical position, `limit` the hard ceiling on cumulative
bytes ever returned by reads, and `consumed` the cumulative bytes
returned so far. -/
structure ArcStream where
  data : List Nat
  pos : Nat
  limit : Nat
  consumed : Nat
deriving DecidableEq

/-- Modelled from the spec: `read` returns at most the requested count,
truncated both by the bytes available at the current position and by the
remaining byte-limit budget; it advances the position and the cumulative
consumed counter by the number of bytes returned. -/
def arc_stream_read (s : ArcStream) (k : Nat) : List Nat × ArcStream :=
  let avail := s.data.length - s.pos
  let budget := s.limit - s.consumed
  let n := min k (min avail budget)
  ((s.data.drop s.pos).take n,
   { s with pos := s.pos + n, consumed := s.consumed + n })

/-- Modelled from the spec: absolute seek (`SEEK_SET`), used by the
detector only to return to a previously recorded position.  Seeking does
not refund consumed-byte accounting. -/
def arc_stream_seek (s : ArcStream) (p : Nat) : ArcStream :=
  { s with pos := p }

/-- Modelled from the spec: `tell` reports the current logical position. -/
def arc_stream_tell (s : ArcStream) : Nat := s.pos

/-- Modelled from the spec: `arc_stream_from_fd` wraps an open file in a
stream positioned at 0 with the given byte limit. -/
def arc_stream_from_fd (bytes : List Nat) (byte_limit : Nat) : ArcStream :=
  { data := bytes, pos := 0, limit := byte_limit, consumed := 0 }

/-- Modelled from the spec: a decompression filter over `underlying`.
Its byte sequence is the decompression of the underlying stream's
content from its current position; a `byte_limit` of 0 inherits the
underlying stream's remaining limit (`arc_filter.c` is not in the
available sources; this follows the stated filter contract). -/
def arc_filter_make (underlying : ArcStream) (decode : Decoder)
    (byte_limit : Nat) : ArcStream :=
  { data := decode (underlying.data.drop underlying.pos)
  , pos := 0
  , limit := if byte_limit = 0 then underlying.limit - underlying.consumed else byte_limit
  , consumed := 0 }

/-- `arc_filter_gzip` from `arc_filter.h`: returns the filter stream, or
NULL (`none`) when construction fails (no zlib backend available). -/
def arc_filter_gzip (impl : Option Decoder) (underlying : ArcStream)
    (byte_limit : Nat) : Option ArcStream :=
  impl.map (fun d => arc_filter_make underlying d byte_limit)

/-- `arc_filter_bzip2` from `arc_filter.h`: returns the filter stream, or
NULL (`none`) when construction fails. -/
def arc_filter_bzip2 (impl : Option Decoder) (underlying : ArcStream)
    (byte_limit : Nat) : Option ArcStream :=
  impl.map (fun d => arc_filter_make underlying d byte_limit)

/-- `arc_filter_xz` from `arc_filter.h`: "Requires liblzma. Returns NULL
if not available."  `impl = none` models liblzma being unavailable at
build time; the constructor then returns NULL (`none`). -/
def arc_filter_xz (impl : Option Decoder) (underlying : ArcStream)
    (byte_limit : Nat) : Option ArcStream :=
  impl.map (fun d => arc_filter_make underlying d byte_limit)

/-- The gzip magic test of `detect_format`: `magic[0] == 0x1f && magic[1] == 0x8b`. -/
def gzip_magic (m : List Nat) : Bool :=
  m.getD 0 0 == 0x1f && m.getD 1 0 == 0x8b

/-- The bzip2 magic test of `detect_format`:
`magic[0] == B && magic[1] == Z && n >= 3 && magic[2] == h`. -/
def bzip2_magic (m : List Nat) : Bool :=
  m.getD 0 0 == 66 && m.getD 1 0 == 90 && decide (3 ≤ m.length) && m.getD 2 0 == 104

/-- The xz magic test of `detect_format`:
`magic[0] == 0xFD && magic[1] == 0x37 && n >= 4 && magic[2] == 0x7A && magic[3] == 0x58`. -/
def xz_magic (m : List Nat) : Bool :=
  m.getD 0 0 == 0xfd && m.getD 1 0 == 0x37 && decide (4 ≤ m.length) &&
  m.getD 2 0 == 0x7a && m.getD 3 0 == 0x58

/-- The little-endian 32-bit value assembled by `detect_format` from the
first four magic bytes. -/
def le32 (m : List Nat) : Nat :=
  m.getD 0 0 + m.getD 1 0 * 256 + m.getD 2 0 * 65536 + m.getD 3 0 * 16777216

/-- The ZIP selection test of `detect_format`: at least a `PK` pair was
read, four bytes are present, and the little-endian signature is the
local-file-header, end-of-central-directory, or central-directory magic. -/
def zip_sig (m : List Nat) : Bool :=
  decide (2 ≤ m.length) && m.getD 0 0 == 0x50 && m.getD 1 0 == 0x4b &&
  decide (4 ≤ m.length) &&
  (le32 m == 0x04034b50 || le32 m == 0x06054b50 || le32 m == 0x02014b50)

/-- C locale `isprint`: the printable characters are 0x20 through 0x7e. -/
def is_printable (c : Nat) : Bool :=
  decide (0x20 ≤ c) && decide (c ≤ 0x7e)

/-- The TAR header test of `detect_format` on a 512-byte block: "ustar"
or "USTAR" at offset 257, or a printable non-NUL first byte (legacy tar
heuristic). -/
def tar_magic_block (header : List Nat) : Bool :=
  ((header.drop 257).take 5 == [0x75, 0x73, 0x74, 0x61, 0x72]) ||
  ((header.drop 257).take 5 == [0x55, 0x53, 0x54, 0x41, 0x52]) ||
  (header.getD 0 0 != 0 && is_printable (header.getD 0 0))

/-- The archive-format stage of `detect_format` (lines 213-244 of
`arc_reader.c`), applied to the effective stream `st` (filter output or
raw stream), the magic bytes last read, and the position recorded at the
start of sniffing.  Returns the format (-1 unknown, 0 TAR, 1 ZIP) and
the final state of the effective stream. -/
def detect_stage2 (st : ArcStream) (magic : List Nat) (pos : Nat) :
    Int × ArcStream :=
  if zip_sig magic then
    (1, arc_stream_seek st pos)
  else
    let pos2 := arc_stream_tell st
    let rd := arc_stream_read st 512
    if rd.1.length = 512 ∧ tar_magic_block rd.1 then
      (0, arc_stream_seek rd.2 pos2)
    else
      (-1, arc_stream_seek rd.2 pos2)

/-- The part of a compression branch of `detect_format` that runs after
the filter was successfully constructed: re-read the magic from the
filter output `f0`, fail if fewer than 2 bytes come back, then run
archive-format detection on the filter stream. -/
def detect_comp_filter (f0 s2 : ArcStream) (pos : Nat) :
    Int × ArcStream × Option ArcStream :=
  let rd := arc_stream_read f0 4
  if rd.1.length < 2 then
    (-1, s2, some rd.2)
  else
    let r2 := detect_stage2 rd.2 rd.1 pos
    (r2.1, s2, some r2.2)

/-- The shared body of the three compression branches of `detect_format`:
seek the raw stream back to the recorded position, construct the filter
with a byte limit of 0, fail if construction fails, re-read the magic
from the filter output, fail if fewer than 2 bytes come back, then run
archive-format detection on the filter stream.  Returns (format, final
raw stream state, filter stream handed back through `*decompressed`). -/
def detect_comp (mk : ArcStream → Nat → Option ArcStream) (s1 : ArcStream)
    (pos : Nat) : Int × ArcStream × Option ArcStream :=
  let s2 := arc_stream_seek s1 pos
  match mk s2 0 with
  | none => (-1, s2, none)
  | some f0 => detect_comp_filter f0 s2 pos

/-- `detect_format` from `arc_reader.c` (lines 158-245): record the
position, read a 4-byte magic, fail if fewer than 2 bytes are available,
try the gzip, bzip2 and xz magics in that order (constructing the
matching filter on a hit), otherwise seek back, and classify the archive
format.  The result is (format, final raw stream state, stream returned
through `*decompressed`). -/
def detect_format (gz bz xz : Option Decoder) (s0 : ArcStream) :
    Int × ArcStream × Option ArcStream :=
  let pos := arc_stream_tell s0
  let rd := arc_stream_read s0 4
  if rd.1.length < 2 then
    (-1, rd.2, none)
  else if gzip_magic rd.1 then
    detect_comp (arc_filter_gzip gz) rd.2 pos
  else if bzip2_magic rd.1 then
    detect_comp (arc_filter_bzip2 bz) rd.2 pos
  else if xz_magic rd.1 then
    detect_comp (arc_filter_xz xz) rd.2 pos
  else
    let s2 := arc_stream_seek rd.2 pos
    let r2 := detect_stage2 s2 rd.1 pos
    (r2.1, r2.2, none)

/-- An archive reader: the format tag dispatched on by `arc_next` and
friends, plus the stream the format parser reads from. -/
structure ArcReader where
  format : Int
  stream : ArcStream
deriving DecidableEq

/-- Modelled from the spec: `arc_tar_open` (from the absent `arc_tar.c`)
builds a TAR reader over the handed-off stream. -/
def arc_tar_open (s : ArcStream) : Option ArcReader :=
  some { format := 0, stream := s }

/-- Modelled from the spec: `arc_zip_open` (from the absent `arc_zip.c`)
builds a ZIP reader over the handed-off stream. -/
def arc_zip_open (s : ArcStream) : Option ArcReader :=
  some { format := 1, stream := s }

/-- `create_reader` from `arc_reader.c`: dispatch on the detected format
tag. -/
def create_reader (s : ArcStream) (format : Int) : Option ArcReader :=
  if format = 0 then arc_tar_open s
  else if format = 1 then arc_zip_open s
  else none

/-- `arc_open_path` from `arc_reader.c`: `fs` models the filesystem
(`none` = path unreadable, i.e. `open`/`fstat` failed; `some bytes` = the
file's content, whose length is `st.st_size`).  The base stream gets a
byte limit of `st.st_size * 10`; on detection failure the function
returns NULL; otherwise the reader is built over the decompressed stream
when one was constructed, else over the raw stream. -/
def arc_open_path (fs : String → Option (List Nat)) (gz bz xz : Option Decoder)
    (path : Option String) : Option ArcReader :=
  match path with
  | none => none
  | some p =>
    match fs p with
    | none => none
    | some bytes =>
      let stream := arc_stream_from_fd bytes (bytes.length * 10)
      let r := detect_format gz bz xz stream
      if r.1 < 0 then none
      else create_reader (r.2.2.getD r.2.1) r.1

/-- `arc_open_stream` from `arc_reader.c`: same pipeline over a
caller-supplied stream (`none` models a NULL stream argument). -/
def arc_open_stream (gz bz xz : Option Decoder) (s : Option ArcStream) :
    Option ArcReader :=
  match s with
  | none => none
  | some st =>
    let r := detect_format gz bz xz st
    if r.1 < 0 then none
    else create_reader (r.2.2.getD r.2.1) r.1

/-- An archive entry as in `arc_reader.h`: the two heap-allocated string
fields are modelled as optional allocation identifiers (`none` = NULL),
the scalar fields as naturals. -/
structure ArcEntry where
  path : Option Nat
  size : Nat
  mode : Nat
  mtime : Nat
  etype : Nat
  link_target : Option Nat
  uid : Nat
  gid : Nat
deriving DecidableEq

/-- The all-zero entry produced by `memset(entry, 0, sizeof(*entry))`:
NULL pointers and zero scalars. -/
def entry_zeroed : ArcEntry :=
  { path := none, size := 0, mode := 0, mtime := 0, etype := 0
  , link_target := none, uid := 0, gid := 0 }

/-- `arc_entry_free` from `arc_reader.c`: on a NULL entry do nothing;
otherwise free `path` and `link_target` and zero the whole entry.  The
second component lists the non-NULL pointers passed to `free` (passing
NULL to `free` is a no-op and is not listed). -/
def arc_entry_free (e : Option ArcEntry) : Option ArcEntry × List Nat :=
  match e with
  | none => (none, [])
  | some ent => (some entry_zeroed, ent.path.toList ++ ent.link_target.toList)

/-- What the compression branches of `detect_format` compute on the
decompressed byte sequence `bs`: fail when fewer than 2 decompressed
bytes exist, select ZIP on a ZIP signature in the first four bytes, and
otherwise test the 512-byte block that starts at decompressed offset 4
(the magic re-read from the filter is not seeked back before the TAR
stage records its position). -/
def classify_filtered (bs : List Nat) : Int :=
  if (bs.take 4).length < 2 then -1
  else if zip_sig (bs.take 4) then 1
  else if ((bs.drop 4).take 512).length = 512 ∧ tar_magic_block ((bs.drop 4).take 512) then 0
  else -1

/-- A gzip-compressed stream whose decompressed content is a legacy tar
archive: the modelled decoder produces 516 bytes of `0x61` (printable,
so the legacy-tar first-byte heuristic of `detect_format` selects TAR). -/
def gz_tar_decoder : Decoder := fun _ => List.replicate 516 97

/-- A raw gzip-compressed stream: four raw bytes beginning with the gzip
magic `1F 8B`, ample byte limit. -/
def gz_tar_stream : ArcStream :=
  { data := [31, 139, 8, 0], pos := 0, limit := 100000, consumed := 0 }

/-- A one-byte input stream: too short to sniff. -/
def one_byte_stream : ArcStream :=
  { data := [97], pos := 0, limit := 100, consumed := 0 }

/-- A client-visible stream operation: a read of `k` bytes or an
absolute seek. -/
inductive StreamOp where
  | readOp (k : Nat)
  | seekOp (p : Nat)

/-- Run a sequence of stream operations, collecting every byte returned
by the reads. -/
def run_ops : ArcStream → List StreamOp → List Nat × ArcStream
  | s, [] => ([], s)
  | s, StreamOp.readOp k :: ops =>
    let rd := arc_stream_read s k
    let rest := run_ops rd.2 ops
    (rd.1 ++ rest.1, rest.2)
  | s, StreamOp.seekOp p :: ops => run_ops (arc_stream_seek s p) ops

/-- Reading returns exactly `min requested (min available budget)` bytes. -/
theorem arc_stream_read_fst_length (s : ArcStream) (k : Nat) :
    (arc_stream_read s k).1.length =
      min k (min (s.data.length - s.pos) (s.limit - s.consumed)) := by
  simp only [arc_stream_read, List.length_take, List.length_drop]
  omega

/-- The state after a read: position and consumed advance by the bytes
returned, everything else is unchanged. -/
theorem arc_stream_read_snd (s : ArcStream) (k : Nat) :
    (arc_stream_read s k).2 =
      { s with
        pos := s.pos + min k (min (s.data.length - s.pos) (s.limit - s.consumed)),
        consumed := s.consumed + min k (min (s.data.length - s.pos) (s.limit - s.consumed)) } :=
  rfl

/-- Core byte-limit invariant: any operation sequence on a stream whose
consumed count is within its limit yields at most `limit - consumed`
further bytes. -/
theorem run_ops_yield_bound (ops : List StreamOp) (s : ArcStream)
    (h : s.consumed ≤ s.limit) :
    (run_ops s ops).1.length + s.consumed ≤ s.limit := by
  induction ops generalizing s with
  | nil => simpa [run_ops] using h
  | cons op ops ih =>
    cases op with
    | readOp k =>
      have hlen := arc_stream_read_fst_length s k
      have hcons : (arc_stream_read s k).2.consumed =
          s.consumed + min k (min (s.data.length - s.pos) (s.limit - s.consumed)) := rfl
      have hlim : (arc_stream_read s k).2.limit = s.limit := rfl
      have hih := ih (arc_stream_read s k).2 (by rw [hcons, hlim]; omega)
      rw [hcons, hlim] at hih
      simp only [run_ops, List.length_append]
      omega
    | seekOp p =>
      have hih := ih (arc_stream_seek s p) h
      simpa [run_ops, arc_stream_seek] using hih

/-- Reading does not change the backing byte sequence. -/
theorem arc_stream_read_data (s : ArcStream) (k : Nat) :
    (arc_stream_read s k).2.data = s.data := rfl

/-- Seeking does not change the backing byte sequence. -/
theorem arc_stream_seek_data (s : ArcStream) (p : Nat) :
    (arc_stream_seek s p).data = s.data := rfl

/-- With at least 4 bytes of limit budget, the 4-byte magic read returns
the four bytes at the current position (all remaining bytes when fewer
than four are available). -/
theorem arc_stream_read4_eq_take4 (s : ArcStream) (hb : 4 ≤ s.limit - s.consumed) :
    (arc_stream_read s 4).1 = (s.data.drop s.pos).take 4 := by
  simp only [arc_stream_read]
  rw [List.take_eq_take]
  simp only [List.length_drop]
  omega

/-- A bzip2 magic is never a gzip magic (the first bytes differ). -/
theorem bzip2_magic_not_gzip (m : List Nat) (h : bzip2_magic m = true) :
    gzip_magic m = false := by
  simp only [bzip2_magic, Bool.and_eq_true, beq_iff_eq, decide_eq_true_eq] at h
  cases hg : gzip_magic m
  · rfl
  · exfalso
    simp only [gzip_magic, Bool.and_eq_true, beq_iff_eq] at hg
    omega

/-- An xz magic is never a gzip magic (the first bytes differ). -/
theorem xz_magic_not_gzip (m : List Nat) (h : xz_magic m = true) :
    gzip_magic m = false := by
  simp only [xz_magic, Bool.and_eq_true, beq_iff_eq, decide_eq_true_eq] at h
  cases hg : gzip_magic m
  · rfl
  · exfalso
    simp only [gzip_magic, Bool.and_eq_true, beq_iff_eq] at hg
    omega

/-- An xz magic is never a bzip2 magic (the first bytes differ). -/
theorem xz_magic_not_bzip2 (m : List Nat) (h : xz_magic m = true) :
    bzip2_magic m = false := by
  simp only [xz_magic, Bool.and_eq_true, beq_iff_eq, decide_eq_true_eq] at h
  cases hg : bzip2_magic m
  · rfl
  · exfalso
    simp only [bzip2_magic, Bool.and_eq_true, beq_iff_eq, decide_eq_true_eq] at hg
    omega

/-- `detect_format` on an input with fewer than 2 readable bytes: fail
with the raw stream left in its post-read state. -/
theorem detect_format_too_short (gz bz xz : Option Decoder) (s : ArcStream)
    (h : min (s.data.length - s.pos) (s.limit - s.consumed) < 2) :
    detect_format gz bz xz s = (-1, (arc_stream_read s 4).2, none) := by
  have hl := arc_stream_read_fst_length s 4
  simp only [detect_format, arc_stream_tell]
  rw [if_pos (by rw [hl]; omega)]

/-- `detect_format` dispatches to the gzip compression branch when the
magic read starts with `1F 8B`. -/
theorem detect_format_gzip_branch (gz bz xz : Option Decoder) (s : ArcStream)
    (h2 : 2 ≤ (arc_stream_read s 4).1.length)
    (hm : gzip_magic (arc_stream_read s 4).1 = true) :
    detect_format gz bz xz s =
      detect_comp (arc_filter_gzip gz) (arc_stream_read s 4).2 s.pos := by
  simp only [detect_format, arc_stream_tell]
  rw [if_neg (by omega), if_pos hm]

/-- `detect_format` dispatches to the bzip2 compression branch when the
magic read starts with `BZh`. -/
theorem detect_format_bzip2_branch (gz bz xz : Option Decoder) (s : ArcStream)
    (h2 : 2 ≤ (arc_stream_read s 4).1.length)
    (hm : bzip2_magic (arc_stream_read s 4).1 = true) :
    detect_format gz bz xz s =
      detect_comp (arc_filter_bzip2 bz) (arc_stream_read s 4).2 s.pos := by
  simp only [detect_format, arc_stream_tell]
  rw [if_neg (by omega), if_neg (by simp [bzip2_magic_not_gzip _ hm]), if_pos hm]

/-- `detect_format` dispatches to the xz compression branch when the
magic read starts with `FD 37 7A 58`. -/
theorem detect_format_xz_branch (gz bz xz : Option Decoder) (s : ArcStream)
    (h2 : 2 ≤ (arc_stream_read s 4).1.length)
    (hm : xz_magic (arc_stream_read s 4).1 = true) :
    detect_format gz bz xz s =
      detect_comp (arc_filter_xz xz) (arc_stream_read s 4).2 s.pos := by
  simp only [detect_format, arc_stream_tell]
  rw [if_neg (by omega), if_neg (by simp [xz_magic_not_gzip _ hm]),
    if_neg (by simp [xz_magic_not_bzip2 _ hm]), if_pos hm]

/-- `detect_format` with no compression magic: seek back and classify on
the raw stream. -/
theorem detect_format_raw_branch (gz bz xz : Option Decoder) (s : ArcStream)
    (h2 : 2 ≤ (arc_stream_read s 4).1.length)
    (hg : gzip_magic (arc_stream_read s 4).1 = false)
    (hbz : bzip2_magic (arc_stream_read s 4).1 = false)
    (hx : xz_magic (arc_stream_read s 4).1 = false) :
    detect_format gz bz xz s =
      ((detect_stage2 (arc_stream_seek (arc_stream_read s 4).2 s.pos)
          (arc_stream_read s 4).1 s.pos).1,
       (detect_stage2 (arc_stream_seek (arc_stream_read s 4).2 s.pos)
          (arc_stream_read s 4).1 s.pos).2,
       none) := by
  simp only [detect_format, arc_stream_tell]
  rw [if_neg (by omega), if_neg (by simp [hg]), if_neg (by simp [hbz]),
    if_neg (by simp [hx])]

/-- A compression branch whose gzip constructor is unavailable fails
with the raw stream seeked back and no filter handed out. -/
theorem detect_comp_gzip_none (s1 : ArcStream) (pos : Nat) :
    detect_comp (arc_filter_gzip none) s1 pos = (-1, arc_stream_seek s1 pos, none) := rfl

/-- A compression branch whose bzip2 constructor is unavailable fails
with the raw stream seeked back and no filter handed out. -/
theorem detect_comp_bzip2_none (s1 : ArcStream) (pos : Nat) :
    detect_comp (arc_filter_bzip2 none) s1 pos = (-1, arc_stream_seek s1 pos, none) := rfl

/-- A compression branch whose xz constructor is unavailable (liblzma
missing) fails with the raw stream seeked back and no filter handed
out — the same result shape as every other detection failure. -/
theorem detect_comp_xz_none (s1 : ArcStream) (pos : Nat) :
    detect_comp (arc_filter_xz none) s1 pos = (-1, arc_stream_seek s1 pos, none) := rfl

/-- A compression branch with an available gzip backend runs the filter
stage on the constructed filter. -/
theorem detect_comp_gzip_some (d : Decoder) (s1 : ArcStream) (pos : Nat) :
    detect_comp (arc_filter_gzip (some d)) s1 pos =
      detect_comp_filter (arc_filter_make (arc_stream_seek s1 pos) d 0)
        (arc_stream_seek s1 pos) pos := rfl

/-- A compression branch with an available bzip2 backend runs the filter
stage on the constructed filter. -/
theorem detect_comp_bzip2_some (d : Decoder) (s1 : ArcStream) (pos : Nat) :
    detect_comp (arc_filter_bzip2 (some d)) s1 pos =
      detect_comp_filter (arc_filter_make (arc_stream_seek s1 pos) d 0)
        (arc_stream_seek s1 pos) pos := rfl

/-- A compression branch with an available xz backend runs the filter
stage on the constructed filter. -/
theorem detect_comp_xz_some (d : Decoder) (s1 : ArcStream) (pos : Nat) :
    detect_comp (arc_filter_xz (some d)) s1 pos =
      detect_comp_filter (arc_filter_make (arc_stream_seek s1 pos) d 0)
        (arc_stream_seek s1 pos) pos := rfl

/-- The archive-format stage leaves the backing byte sequence of the
effective stream unchanged. -/
theorem detect_stage2_snd_data (st : ArcStream) (m : List Nat) (p : Nat) :
    (detect_stage2 st m p).2.data = st.data := by
  simp only [detect_stage2]
  split
  · rfl
  · split
    · rfl
    · rfl

/-- The format computed by the archive-format stage, as a function of
the magic bytes and of the 512-byte block read from the effective
stream. -/
theorem detect_stage2_fst (st : ArcStream) (m : List Nat) (p : Nat) :
    (detect_stage2 st m p).1 =
      if zip_sig m then (1 : Int)
      else if (arc_stream_read st 512).1.length = 512 ∧
          tar_magic_block (arc_stream_read st 512).1 then 0
      else -1 := by
  simp only [detect_stage2, arc_stream_tell]
  split
  · rfl
  · split
    · rfl
    · rfl

/-- The archive-format stage yields ZIP exactly on a ZIP signature. -/
theorem detect_stage2_fst_eq_one_iff (st : ArcStream) (m : List Nat) (p : Nat) :
    (detect_stage2 st m p).1 = 1 ↔ zip_sig m = true := by
  rw [detect_stage2_fst]
  split
  · simp_all
  · split <;> simp_all

/-- The archive-format stage yields only -1, 0 or 1. -/
theorem detect_stage2_fst_range (st : ArcStream) (m : List Nat) (p : Nat) :
    (detect_stage2 st m p).1 = -1 ∨ (detect_stage2 st m p).1 = 0 ∨
      (detect_stage2 st m p).1 = 1 := by
  rw [detect_stage2_fst]
  split
  · simp
  · split <;> simp

/-- The filter stage of a compression branch always returns the raw
stream it was given (seeked back to the recorded position by the
caller) as the raw-stream component. -/
theorem detect_comp_filter_snd_fst (f0 s2 : ArcStream) (pos : Nat) :
    (detect_comp_filter f0 s2 pos).2.1 = s2 := by
  simp only [detect_comp_filter]
  split
  · rfl
  · rfl

/-- The filter stage always hands back a decompressed stream whose byte
sequence is the filter's decompressed sequence. -/
theorem detect_comp_filter_snd_snd (f0 s2 : ArcStream) (pos : Nat) :
    (detect_comp_filter f0 s2 pos).2.2.map ArcStream.data = some f0.data := by
  simp only [detect_comp_filter]
  split
  · simp [arc_stream_read_data]
  · simp [detect_stage2_snd_data, arc_stream_read_data]

/-- On fewer than two decompressed bytes, the compression-branch
classification fails. -/
theorem classify_filtered_short (bs : List Nat) (h : bs.length < 2) :
    classify_filtered bs = -1 := by
  simp only [classify_filtered]
  rw [if_pos (by simp; omega)]

/-- On at least two decompressed bytes, the compression-branch
classification is the ZIP/TAR decision. -/
theorem classify_filtered_eq (bs : List Nat) (h : 2 ≤ bs.length) :
    classify_filtered bs =
      if zip_sig (bs.take 4) = true then (1 : Int)
      else if ((bs.drop 4).take 512).length = 512 ∧
          tar_magic_block ((bs.drop 4).take 512) = true then 0
      else -1 := by
  simp only [classify_filtered]
  rw [if_neg (by simp; omega)]

/-- The format computed by the filter stage of a compression branch is a
function of the decompressed byte sequence alone, namely
`classify_filtered`, provided the filter's limit is ample. -/
theorem detect_comp_filter_fst (bs : List Nat) (lim : Nat) (s2 : ArcStream)
    (pos : Nat) (hlim : 516 ≤ lim) :
    (detect_comp_filter ⟨bs, 0, lim, 0⟩ s2 pos).1 = classify_filtered bs := by
  have h1 : (arc_stream_read ⟨bs, 0, lim, 0⟩ 4).1 = bs.take 4 := by
    rw [arc_stream_read4_eq_take4]
    · simp
    · show 4 ≤ lim - 0
      omega
  have h1l : (arc_stream_read ⟨bs, 0, lim, 0⟩ 4).1.length = min 4 bs.length := by
    rw [h1]
    simp
  have h2 : (arc_stream_read ⟨bs, 0, lim, 0⟩ 4).2 =
      ⟨bs, min 4 (min bs.length lim), lim, min 4 (min bs.length lim)⟩ := by
    simp [arc_stream_read]
  simp only [detect_comp_filter]
  by_cases hshort : bs.length < 2
  · rw [if_pos (by rw [h1l]; omega), classify_filtered_short bs hshort]
  · rw [if_neg (by rw [h1l]; omega)]
    rw [h1, h2, detect_stage2_fst, classify_filtered_eq bs (by omega)]
    by_cases hz : zip_sig (bs.take 4) = true
    · rw [if_pos hz, if_pos hz]
    · rw [if_neg hz, if_neg hz]
      have h512 : (arc_stream_read
          ⟨bs, min 4 (min bs.length lim), lim, min 4 (min bs.length lim)⟩ 512).1 =
          (bs.drop 4).take 512 := by
        by_cases hL4 : 4 ≤ bs.length
        · have hn1 : min 4 (min bs.length lim) = 4 := by omega
          rw [hn1]
          simp only [arc_stream_read]
          rw [List.take_eq_take]
          simp only [List.length_drop]
          omega
        · have hn1 : min 4 (min bs.length lim) = bs.length := by omega
          rw [hn1]
          simp only [arc_stream_read]
          rw [List.drop_length, List.drop_of_length_le (by omega)]
          simp
      rw [h512]

/-- The filter stage yields only -1, 0 or 1 as format. -/
theorem detect_comp_filter_fst_range (f0 s2 : ArcStream) (pos : Nat) :
    (detect_comp_filter f0 s2 pos).1 = -1 ∨ (detect_comp_filter f0 s2 pos).1 = 0 ∨
      (detect_comp_filter f0 s2 pos).1 = 1 := by
  simp only [detect_comp_filter]
  split
  · simp
  · simpa using detect_stage2_fst_range (arc_stream_read f0 4).2 (arc_stream_read f0 4).1 pos

/-- A compression branch yields only -1, 0 or 1 as format. -/
theorem detect_comp_fst_range (mk : ArcStream → Nat → Option ArcStream)
    (s1 : ArcStream) (pos : Nat) :
    (detect_comp mk s1 pos).1 = -1 ∨ (detect_comp mk s1 pos).1 = 0 ∨
      (detect_comp mk s1 pos).1 = 1 := by
  simp only [detect_comp]
  split
  · simp
  · simpa using detect_comp_filter_fst_range _ _ _

/-- `detect_format` yields only -1, 0 or 1. -/
theorem detect_format_fst_range (gz bz xz : Option Decoder) (s : ArcStream) :
    (detect_format gz bz xz s).1 = -1 ∨ (detect_format gz bz xz s).1 = 0 ∨
      (detect_format gz bz xz s).1 = 1 := by
  simp only [detect_format, arc_stream_tell]
  split
  · simp
  · split
    · exact detect_comp_fst_range _ _ _
    · split
      · exact detect_comp_fst_range _ _ _
      · split
        · exact detect_comp_fst_range _ _ _
        · simpa using detect_stage2_fst_range _ _ _

/-- Indexing into a byte-bounded list stays below 256. -/
theorem getD_lt_256 (m : List Nat) (i : Nat) (hi : i < m.length)
    (hm : ∀ b ∈ m, b < 256) : m.getD i 0 < 256 := by
  rw [List.getD_eq_getElem m 0 hi]
  exact hm _ (List.getElem_mem hi)

/-- For genuine byte sequences, the ZIP test of `detect_format` holds
exactly when four bytes are present and their little-endian value is one
of the three ZIP magic numbers. -/
theorem zip_sig_iff_le32 (m : List Nat) (hm : ∀ b ∈ m, b < 256) (hl : 4 ≤ m.length) :
    zip_sig m = true ↔
      (le32 m = 0x04034b50 ∨ le32 m = 0x06054b50 ∨ le32 m = 0x02014b50) := by
  have h0 := getD_lt_256 m 0 (by omega) hm
  have h1 := getD_lt_256 m 1 (by omega) hm
  have h2 := getD_lt_256 m 2 (by omega) hm
  have h3 := getD_lt_256 m 3 (by omega) hm
  simp only [zip_sig, le32, Bool.and_eq_true, Bool.or_eq_true, beq_iff_eq,
    decide_eq_true_eq]
  omega

/-- The compression-branch classification selects ZIP exactly on a ZIP
signature in the first four decompressed bytes. -/
theorem classify_filtered_eq_one_iff (bs : List Nat) :
    classify_filtered bs = 1 ↔ zip_sig (bs.take 4) = true := by
  by_cases hshort : bs.length < 2
  · rw [classify_filtered_short bs hshort]
    constructor
    · intro h
      exact absurd h (by norm_num)
    · intro h
      exfalso
      simp only [zip_sig, Bool.and_eq_true, decide_eq_true_eq] at h
      have := h.1.1.1.1
      simp only [List.length_take] at this
      omega
  · rw [classify_filtered_eq bs (by omega)]
    by_cases hz : zip_sig (bs.take 4) = true
    · simp [hz]
    · rw [if_neg hz]
      simp only [hz, Bool.false_eq_true, iff_false]
      intro h
      split at h <;> omega

/-- The gzip master lemma: on a stream whose lead bytes carry the gzip
magic, with an available gzip backend and ample limit budget,
`detect_format` seeks the raw stream back to the recorded position,
hands out a filter stream carrying the decompression of the original
stream content, and returns the classification of the decompressed
bytes. -/
theorem detect_format_gzip_decodes (bz xz : Option Decoder) (d : Decoder)
    (s : ArcStream)
    (ha : 2 ≤ s.data.length - s.pos)
    (hb : s.consumed + 520 ≤ s.limit)
    (hm : gzip_magic ((s.data.drop s.pos).take 4) = true) :
    (detect_format (some d) bz xz s).1 = classify_filtered (d (s.data.drop s.pos)) ∧
    (detect_format (some d) bz xz s).2.1 =
      arc_stream_seek (arc_stream_read s 4).2 s.pos ∧
    (detect_format (some d) bz xz s).2.2.map ArcStream.data =
      some (d (s.data.drop s.pos)) := by
  have ht : (arc_stream_read s 4).1 = (s.data.drop s.pos).take 4 :=
    arc_stream_read4_eq_take4 s (by omega)
  have hlen : 2 ≤ (arc_stream_read s 4).1.length := by
    rw [arc_stream_read_fst_length]
    omega
  rw [detect_format_gzip_branch (some d) bz xz s hlen (by rw [ht]; exact hm)]
  rw [detect_comp_gzip_some]
  have hmk : arc_filter_make (arc_stream_seek (arc_stream_read s 4).2 s.pos) d 0 =
      ⟨d (s.data.drop s.pos), 0, s.limit - (arc_stream_read s 4).2.consumed, 0⟩ := by
    simp [arc_filter_make, arc_stream_seek, arc_stream_read]
  rw [hmk]
  refine ⟨?_, detect_comp_filter_snd_fst _ _ _, ?_⟩
  · refine detect_comp_filter_fst _ _ _ _ ?_
    have hc : (arc_stream_read s 4).2.consumed =
        s.consumed + min 4 (min (s.data.length - s.pos) (s.limit - s.consumed)) := rfl
    omega
  · simpa using detect_comp_filter_snd_snd _ _ _

/-- The bzip2 master lemma: as the gzip one, for the bzip2 magic. -/
theorem detect_format_bzip2_decodes (gz xz : Option Decoder) (d : Decoder)
    (s : ArcStream)
    (ha : 2 ≤ s.data.length - s.pos)
    (hb : s.consumed + 520 ≤ s.limit)
    (hm : bzip2_magic ((s.data.drop s.pos).take 4) = true) :
    (detect_format gz (some d) xz s).1 = classify_filtered (d (s.data.drop s.pos)) ∧
    (detect_format gz (some d) xz s).2.1 =
      arc_stream_seek (arc_stream_read s 4).2 s.pos ∧
    (detect_format gz (some d) xz s).2.2.map ArcStream.data =
      some (d (s.data.drop s.pos)) := by
  have ht : (arc_stream_read s 4).1 = (s.data.drop s.pos).take 4 :=
    arc_stream_read4_eq_take4 s (by omega)
  have hlen : 2 ≤ (arc_stream_read s 4).1.length := by
    rw [arc_stream_read_fst_length]
    omega
  rw [detect_format_bzip2_branch gz (some d) xz s hlen (by rw [ht]; exact hm)]
  rw [detect_comp_bzip2_some]
  have hmk : arc_filter_make (arc_stream_seek (arc_stream_read s 4).2 s.pos) d 0 =
      ⟨d (s.data.drop s.pos), 0, s.limit - (arc_stream_read s 4).2.consumed, 0⟩ := by
    simp [arc_filter_make, arc_stream_seek, arc_stream_read]
  rw [hmk]
  refine ⟨?_, detect_comp_filter_snd_fst _ _ _, ?_⟩
  · refine detect_comp_filter_fst _ _ _ _ ?_
    have hc : (arc_stream_read s 4).2.consumed =
        s.consumed + min 4 (min (s.data.length - s.pos) (s.limit - s.consumed)) := rfl
    omega
  · simpa using detect_comp_filter_snd_snd _ _ _

/-- The xz master lemma: as the gzip one, for the xz magic. -/
theorem detect_format_xz_decodes (gz bz : Option Decoder) (d : Decoder)
    (s : ArcStream)
    (ha : 2 ≤ s.data.length - s.pos)
    (hb : s.consumed + 520 ≤ s.limit)
    (hm : xz_magic ((s.data.drop s.pos).take 4) = true) :
    (detect_format gz bz (some d) s).1 = classify_filtered (d (s.data.drop s.pos)) ∧
    (detect_format gz bz (some d) s).2.1 =
      arc_stream_seek (arc_stream_read s 4).2 s.pos ∧
    (detect_format gz bz (some d) s).2.2.map ArcStream.data =
      some (d (s.data.drop s.pos)) := by
  have ht : (arc_stream_read s 4).1 = (s.data.drop s.pos).take 4 :=
    arc_stream_read4_eq_take4 s (by omega)
  have hlen : 2 ≤ (arc_stream_read s 4).1.length := by
    rw [arc_stream_read_fst_length]
    omega
  rw [detect_format_xz_branch gz bz (some d) s hlen (by rw [ht]; exact hm)]
  rw [detect_comp_xz_some]
  have hmk : arc_filter_make (arc_stream_seek (arc_stream_read s 4).2 s.pos) d 0 =
      ⟨d (s.data.drop s.pos), 0, s.limit - (arc_stream_read s 4).2.consumed, 0⟩ := by
    simp [arc_filter_make, arc_stream_seek, arc_stream_read]
  rw [hmk]
  refine ⟨?_, detect_comp_filter_snd_fst _ _ _, ?_⟩
  · refine detect_comp_filter_fst _ _ _ _ ?_
    have hc : (arc_stream_read s 4).2.consumed =
        s.consumed + min 4 (min (s.data.length - s.pos) (s.limit - s.consumed)) := rfl
    omega
  · simpa using detect_comp_filter_snd_snd _ _ _

/-- Claim C1: when the format detector constructs a decompression filter
passing a byte limit of 0 (as `detect_comp` does for gzip, bzip2 and xz),
the resulting filter's output byte limit equals the underlying stream's
remaining limit, and the cumulative decompressed bytes yielded by the
filter over any operation sequence never exceed that remaining limit. -/
theorem c1_filter_inherits_remaining_limit (s : ArcStream) (d : Decoder)
    (ops : List StreamOp) :
    arc_filter_gzip (some d) s 0 = some (arc_filter_make s d 0) ∧
    (arc_filter_make s d 0).limit = s.limit - s.consumed ∧
    (run_ops (arc_filter_make s d 0) ops).1.length ≤ s.limit - s.consumed := by
  refine ⟨rfl, rfl, ?_⟩
  have h := run_ops_yield_bound ops (arc_filter_make s d 0) (by simp [arc_filter_make])
  simpa [arc_filter_make] using h

/-- Claim C10: `arc_entry_free` is a no-op on NULL, zeroes every field of
a live entry, frees exactly the entry's `path` and `link_target`
pointers, and a second call on the freed entry changes nothing and frees
no pointer (no double free). -/
theorem c10_entry_free_idempotent_no_double_free (e : ArcEntry) :
    arc_entry_free none = (none, []) ∧
    (arc_entry_free (some e)).1 = some entry_zeroed ∧
    (arc_entry_free (some e)).2 = e.path.toList ++ e.link_target.toList ∧
    arc_entry_free (arc_entry_free (some e)).1 = ((arc_entry_free (some e)).1, []) :=
  ⟨rfl, rfl, rfl, rfl⟩

/-- Claim C2: format detection is claimed never to net-advance the
externally observable position — restored on failure, and on success the
handed-off stream sits at the start of the data the parser expects
(decompressed position 0 for a compressed archive).  The code violates
both parts: on a gzip-compressed tar archive detection succeeds (format
0) but hands back the decompressed stream positioned at byte 4, not 0
(the TAR stage re-records the position after the 4 magic bytes were
re-read from the filter and seeks back only to that); and on a one-byte
input detection fails with the stream left at position 1, not restored
to the recorded position 0. -/
theorem c2_detect_position_divergence :
    gz_tar_stream.pos = 0 ∧
    (detect_format (some gz_tar_decoder) none none gz_tar_stream).1 = 0 ∧
    ((detect_format (some gz_tar_decoder) none none gz_tar_stream).2.2.map
      ArcStream.pos) = some 4 ∧
    one_byte_stream.pos = 0 ∧
    (detect_format none none none one_byte_stream).1 = -1 ∧
    (detect_format none none none one_byte_stream).2.1.pos = 1 := by
  refine ⟨rfl, ?_, ?_, rfl, rfl, rfl⟩ <;> decide

/-- Claim C3: the detector matches compression magics in priority order
(gzip `1F 8B`, bzip2 `BZh`, xz `FD 37 7A 58`); on a match it seeks the
raw stream back to the recorded position, constructs the corresponding
filter over the original stream, re-reads the magic from the filter
output, and performs archive-format detection on the decompressed bytes
(the classification is a function of the decoded sequence alone) rather
than on the raw bytes. -/
theorem c3_compression_magic_dispatch (d : Decoder) (gz bz xz : Option Decoder)
    (s : ArcStream)
    (ha : 2 ≤ s.data.length - s.pos)
    (hb : s.consumed + 520 ≤ s.limit) :
    (gzip_magic ((s.data.drop s.pos).take 4) = true →
      (detect_format (some d) bz xz s).1 = classify_filtered (d (s.data.drop s.pos)) ∧
      (detect_format (some d) bz xz s).2.1 =
        arc_stream_seek (arc_stream_read s 4).2 s.pos ∧
      (detect_format (some d) bz xz s).2.2.map ArcStream.data =
        some (d (s.data.drop s.pos))) ∧
    (bzip2_magic ((s.data.drop s.pos).take 4) = true →
      (detect_format gz (some d) xz s).1 = classify_filtered (d (s.data.drop s.pos)) ∧
      (detect_format gz (some d) xz s).2.1 =
        arc_stream_seek (arc_stream_read s 4).2 s.pos ∧
      (detect_format gz (some d) xz s).2.2.map ArcStream.data =
        some (d (s.data.drop s.pos))) ∧
    (xz_magic ((s.data.drop s.pos).take 4) = true →
      (detect_format gz bz (some d) s).1 = classify_filtered (d (s.data.drop s.pos)) ∧
      (detect_format gz bz (some d) s).2.1 =
        arc_stream_seek (arc_stream_read s 4).2 s.pos ∧
      (detect_format gz bz (some d) s).2.2.map ArcStream.data =
        some (d (s.data.drop s.pos))) :=
  ⟨fun hm => detect_format_gzip_decodes bz xz d s ha hb hm,
   fun hm => detect_format_bzip2_decodes gz xz d s ha hb hm,
   fun hm => detect_format_xz_decodes gz bz d s ha hb hm⟩

/-- Witness for C3 at concrete gzip, bzip2 and xz inputs. -/
theorem c3_compression_magic_dispatch_witness :
    ((detect_format (some (fun _ => List.replicate 516 97)) none none
        ⟨[31, 139, 8, 0], 0, 100000, 0⟩).1 =
      classify_filtered (List.replicate 516 97) ∧
     (detect_format (some (fun _ => List.replicate 516 97)) none none
        ⟨[31, 139, 8, 0], 0, 100000, 0⟩).2.1 =
      arc_stream_seek (arc_stream_read ⟨[31, 139, 8, 0], 0, 100000, 0⟩ 4).2 0 ∧
     (detect_format (some (fun _ => List.replicate 516 97)) none none
        ⟨[31, 139, 8, 0], 0, 100000, 0⟩).2.2.map ArcStream.data =
      some (List.replicate 516 97)) ∧
    ((detect_format none (some (fun _ => List.replicate 516 97)) none
        ⟨[66, 90, 104, 57], 0, 100000, 0⟩).1 =
      classify_filtered (List.replicate 516 97) ∧
     (detect_format none (some (fun _ => List.replicate 516 97)) none
        ⟨[66, 90, 104, 57], 0, 100000, 0⟩).2.1 =
      arc_stream_seek (arc_stream_read ⟨[66, 90, 104, 57], 0, 100000, 0⟩ 4).2 0 ∧
     (detect_format none (some (fun _ => List.replicate 516 97)) none
        ⟨[66, 90, 104, 57], 0, 100000, 0⟩).2.2.map ArcStream.data =
      some (List.replicate 516 97)) ∧
    ((detect_format none none (some (fun _ => List.replicate 516 97))
        ⟨[253, 55, 122, 88], 0, 100000, 0⟩).1 =
      classify_filtered (List.replicate 516 97) ∧
     (detect_format none none (some (fun _ => List.replicate 516 97))
        ⟨[253, 55, 122, 88], 0, 100000, 0⟩).2.1 =
      arc_stream_seek (arc_stream_read ⟨[253, 55, 122, 88], 0, 100000, 0⟩ 4).2 0 ∧
     (detect_format none none (some (fun _ => List.replicate 516 97))
        ⟨[253, 55, 122, 88], 0, 100000, 0⟩).2.2.map ArcStream.data =
      some (List.replicate 516 97)) :=
  ⟨(c3_compression_magic_dispatch (fun _ => List.replicate 516 97) none none none
      ⟨[31, 139, 8, 0], 0, 100000, 0⟩ (by decide) (by decide)).1 (by decide),
   (c3_compression_magic_dispatch (fun _ => List.replicate 516 97) none none none
      ⟨[66, 90, 104, 57], 0, 100000, 0⟩ (by decide) (by decide)).2.1 (by decide),
   (c3_compression_magic_dispatch (fun _ => List.replicate 516 97) none none none
      ⟨[253, 55, 122, 88], 0, 100000, 0⟩ (by decide) (by decide)).2.2 (by decide)⟩

/-- Claim C5: an input from which fewer than two bytes can be read at
its current position fails format detection with an error, and
consequently opening it as an archive fails, by caller-supplied stream
and by filesystem path alike. -/
theorem c5_too_short_input_fails (gz bz xz : Option Decoder) (s : ArcStream)
    (fs : String → Option (List Nat)) (p : String) (bytes : List Nat)
    (hs : min (s.data.length - s.pos) (s.limit - s.consumed) < 2)
    (hfs : fs p = some bytes) (hlen : bytes.length < 2) :
    (detect_format gz bz xz s).1 = -1 ∧
    arc_open_stream gz bz xz (some s) = none ∧
    arc_open_path fs gz bz xz (some p) = none := by
  have hd := detect_format_too_short gz bz xz s hs
  have hd2 := detect_format_too_short gz bz xz
    (arc_stream_from_fd bytes (bytes.length * 10))
    (by simp [arc_stream_from_fd]; omega)
  refine ⟨by rw [hd], ?_, ?_⟩
  · simp only [arc_open_stream, hd]
    norm_num
  · simp only [arc_open_path, hfs, hd2]
    norm_num

/-- Witness for C5 at a one-byte stream and a one-byte file. -/
theorem c5_too_short_input_fails_witness :
    (detect_format none none none ⟨[97], 0, 100, 0⟩).1 = -1 ∧
    arc_open_stream none none none (some ⟨[97], 0, 100, 0⟩) = none ∧
    arc_open_path (fun _ => some [5]) none none none (some "a") = none :=
  c5_too_short_input_fails none none none ⟨[97], 0, 100, 0⟩
    (fun _ => some [5]) "a" [5] (by decide) rfl (by decide)

/-- Claim C6: after any decompression step, the detector selects ZIP
exactly when the 4-byte lead of the effective byte sequence (raw when no
compression magic matched, decompressed otherwise), read as a
little-endian 32-bit value, equals the local-file-header magic
0x04034B50, the end-of-central-directory magic 0x06054B50, or the
central-directory-header magic 0x02014B50. -/
theorem c6_zip_selection_iff (gz bz xz : Option Decoder) (d : Decoder)
    (s : ArcStream) :
    (4 ≤ s.data.length - s.pos → s.consumed + 516 ≤ s.limit →
      gzip_magic ((s.data.drop s.pos).take 4) = false →
      bzip2_magic ((s.data.drop s.pos).take 4) = false →
      xz_magic ((s.data.drop s.pos).take 4) = false →
      (∀ b ∈ (s.data.drop s.pos).take 4, b < 256) →
      ((detect_format gz bz xz s).1 = 1 ↔
        (le32 ((s.data.drop s.pos).take 4) = 0x04034b50 ∨
         le32 ((s.data.drop s.pos).take 4) = 0x06054b50 ∨
         le32 ((s.data.drop s.pos).take 4) = 0x02014b50))) ∧
    (2 ≤ s.data.length - s.pos → s.consumed + 520 ≤ s.limit →
      gzip_magic ((s.data.drop s.pos).take 4) = true →
      (∀ b ∈ (d (s.data.drop s.pos)).take 4, b < 256) →
      4 ≤ (d (s.data.drop s.pos)).length →
      ((detect_format (some d) bz xz s).1 = 1 ↔
        (le32 ((d (s.data.drop s.pos)).take 4) = 0x04034b50 ∨
         le32 ((d (s.data.drop s.pos)).take 4) = 0x06054b50 ∨
         le32 ((d (s.data.drop s.pos)).take 4) = 0x02014b50))) := by
  constructor
  · intro ha4 hbud hg hbz hx hbytes
    have ht : (arc_stream_read s 4).1 = (s.data.drop s.pos).take 4 :=
      arc_stream_read4_eq_take4 s (by omega)
    have hlen : 2 ≤ (arc_stream_read s 4).1.length := by
      rw [arc_stream_read_fst_length]
      omega
    rw [detect_format_raw_branch gz bz xz s hlen (by rw [ht]; exact hg)
      (by rw [ht]; exact hbz) (by rw [ht]; exact hx)]
    show (detect_stage2 (arc_stream_seek (arc_stream_read s 4).2 s.pos)
      (arc_stream_read s 4).1 s.pos).1 = 1 ↔ _
    rw [detect_stage2_fst_eq_one_iff, ht,
      zip_sig_iff_le32 _ hbytes (by simp only [List.length_take, List.length_drop]; omega)]
  · intro ha2 hbud hm hbytes h4
    rw [(detect_format_gzip_decodes bz xz d s ha2 hbud hm).1,
      classify_filtered_eq_one_iff,
      zip_sig_iff_le32 _ hbytes (by simp only [List.length_take]; omega)]

/-- Witness for C6 at a raw ZIP local-file-header input and at a
gzip-compressed end-of-central-directory input. -/
theorem c6_zip_selection_iff_witness :
    ((detect_format none none none ⟨[80, 75, 3, 4], 0, 100000, 0⟩).1 = 1 ↔
      (le32 (([80, 75, 3, 4] : List Nat).take 4) = 0x04034b50 ∨
       le32 (([80, 75, 3, 4] : List Nat).take 4) = 0x06054b50 ∨
       le32 (([80, 75, 3, 4] : List Nat).take 4) = 0x02014b50)) ∧
    ((detect_format (some (fun _ => [80, 75, 5, 6])) none none
        ⟨[31, 139, 0, 0], 0, 100000, 0⟩).1 = 1 ↔
      (le32 (([80, 75, 5, 6] : List Nat).take 4) = 0x04034b50 ∨
       le32 (([80, 75, 5, 6] : List Nat).take 4) = 0x06054b50 ∨
       le32 (([80, 75, 5, 6] : List Nat).take 4) = 0x02014b50)) :=
  ⟨(c6_zip_selection_iff none none none (fun _ => [80, 75, 5, 6])
      ⟨[80, 75, 3, 4], 0, 100000, 0⟩).1 (by decide) (by decide) (by decide)
      (by decide) (by decide) (by decide),
   (c6_zip_selection_iff none none none (fun _ => [80, 75, 5, 6])
      ⟨[31, 139, 0, 0], 0, 100000, 0⟩).2 (by decide) (by decide) (by decide)
      (by decide) (by decide)⟩

/-- Claim C7: when no compression and no ZIP magic matches, the detector
reads a full 512-byte block and selects TAR exactly when the full block
is available and it carries "ustar" or "USTAR" at offset 257 or its
first byte is printable non-NUL (legacy heuristic); otherwise, including
when fewer than 512 bytes are available, detection fails with the
unrecognized-format result -1 rather than crashing. -/
theorem c7_tar_selection_iff (gz bz xz : Option Decoder) (s : ArcStream)
    (h2 : 2 ≤ s.data.length - s.pos)
    (hbud : s.consumed + 516 ≤ s.limit)
    (hg : gzip_magic ((s.data.drop s.pos).take 4) = false)
    (hbz : bzip2_magic ((s.data.drop s.pos).take 4) = false)
    (hx : xz_magic ((s.data.drop s.pos).take 4) = false)
    (hz : zip_sig ((s.data.drop s.pos).take 4) = false) :
    ((detect_format gz bz xz s).1 = 0 ↔
      (((s.data.drop s.pos).take 512).length = 512 ∧
        tar_magic_block ((s.data.drop s.pos).take 512) = true)) ∧
    ((detect_format gz bz xz s).1 = 0 ∨ (detect_format gz bz xz s).1 = -1) := by
  have ht : (arc_stream_read s 4).1 = (s.data.drop s.pos).take 4 :=
    arc_stream_read4_eq_take4 s (by omega)
  have hlen : 2 ≤ (arc_stream_read s 4).1.length := by
    rw [arc_stream_read_fst_length]
    omega
  have hblock : (arc_stream_read (arc_stream_seek (arc_stream_read s 4).2 s.pos) 512).1 =
      (s.data.drop s.pos).take 512 := by
    simp only [arc_stream_read, arc_stream_seek]
    rw [List.take_eq_take]
    simp only [List.length_drop]
    omega
  have hformat : (detect_format gz bz xz s).1 =
      (if (((s.data.drop s.pos).take 512).length = 512 ∧
          tar_magic_block ((s.data.drop s.pos).take 512) = true) then (0 : Int) else -1) := by
    rw [detect_format_raw_branch gz bz xz s hlen (by rw [ht]; exact hg)
      (by rw [ht]; exact hbz) (by rw [ht]; exact hx)]
    show (detect_stage2 (arc_stream_seek (arc_stream_read s 4).2 s.pos)
      (arc_stream_read s 4).1 s.pos).1 = _
    rw [detect_stage2_fst, hblock, ht, if_neg (by simp [hz])]
  refine ⟨?_, ?_⟩
  · rw [hformat]
    by_cases hc : (((s.data.drop s.pos).take 512).length = 512 ∧
        tar_magic_block ((s.data.drop s.pos).take 512) = true)
    · simp [hc]
    · simp [hc]
  · rw [hformat]
    by_cases hc : (((s.data.drop s.pos).take 512).length = 512 ∧
        tar_magic_block ((s.data.drop s.pos).take 512) = true)
    · rw [if_pos hc]
      exact Or.inl rfl
    · rw [if_neg hc]
      exact Or.inr rfl

/-- Witness for C7 at a legacy tar block input. -/
theorem c7_tar_selection_iff_witness :
    ((detect_format none none none ⟨List.replicate 516 97, 0, 100000, 0⟩).1 = 0 ↔
      (((List.replicate 516 (97 : Nat)).take 512).length = 512 ∧
        tar_magic_block ((List.replicate 516 (97 : Nat)).take 512) = true)) ∧
    ((detect_format none none none ⟨List.replicate 516 97, 0, 100000, 0⟩).1 = 0 ∨
     (detect_format none none none ⟨List.replicate 516 97, 0, 100000, 0⟩).1 = -1) := by
  have h := c7_tar_selection_iff none none none ⟨List.replicate 516 97, 0, 100000, 0⟩
    (by decide) (by decide) (by decide) (by decide) (by decide) (by decide)
  simpa using h

/-- Claim C4 counterexample: an unreadable path and a readable file of
unrecognized format produce the very same NULL result, so the calling
code cannot tell the unrecognized-format failure apart from the I/O
failure through `arc_open_path`. -/
theorem c4_failures_indistinguishable_counterexample :
    arc_open_path (fun _ => none) none none none (some "a") = none ∧
    arc_open_path (fun _ => some [1, 2, 3, 4, 5]) none none none (some "a") = none ∧
    arc_open_path (fun _ => none) none none none (some "a") =
      arc_open_path (fun _ => some [1, 2, 3, 4, 5]) none none none (some "a") := by
  refine ⟨rfl, ?_, ?_⟩ <;> decide

/-- Claim C4 (amended): `arc_open_path` fails exactly when the path is
NULL, the path is unreadable, or format detection fails (which covers
too-short input and unrecognized format); every failure is reported as
the same NULL return, with no distinction available to the caller. -/
theorem c4_open_path_failure_conditions (fs : String → Option (List Nat))
    (gz bz xz : Option Decoder) (p : String) (bytes : List Nat) :
    arc_open_path fs gz bz xz none = none ∧
    (fs p = none → arc_open_path fs gz bz xz (some p) = none) ∧
    (fs p = some bytes →
      (arc_open_path fs gz bz xz (some p) = none ↔
        (detect_format gz bz xz (arc_stream_from_fd bytes (bytes.length * 10))).1 < 0)) := by
  refine ⟨rfl, ?_, ?_⟩
  · intro h
    simp [arc_open_path, h]
  · intro h
    simp only [arc_open_path, h]
    by_cases hlt : (detect_format gz bz xz
        (arc_stream_from_fd bytes (bytes.length * 10))).1 < 0
    · simp [hlt]
    · rw [if_neg hlt]
      simp only [hlt, iff_false]
      rcases detect_format_fst_range gz bz xz
        (arc_stream_from_fd bytes (bytes.length * 10)) with h0 | h0 | h0
      · exact absurd (by rw [h0]; norm_num) hlt
      · rw [h0]
        simp [create_reader, arc_tar_open]
      · rw [h0]
        simp [create_reader, arc_zip_open]

/-- Witness for the amended C4 at an unreadable path and at a readable
non-archive file. -/
theorem c4_open_path_failure_conditions_witness :
    arc_open_path (fun _ => none) none none none (some "a") = none ∧
    (arc_open_path (fun _ => some [1, 2, 3, 4, 5]) none none none (some "a") = none ↔
      (detect_format none none none
        (arc_stream_from_fd [1, 2, 3, 4, 5] (([1, 2, 3, 4, 5] : List Nat).length * 10))).1 < 0) :=
  ⟨(c4_open_path_failure_conditions (fun _ => none) none none none "a" []).2.1 rfl,
   (c4_open_path_failure_conditions (fun _ => some [1, 2, 3, 4, 5]) none none none
      "a" [1, 2, 3, 4, 5]).2.2 rfl⟩

/-- Claim C8 counterexample: the xz constructor with liblzma unavailable
returns the same NULL as a gzip constructor failure, and opening an
xz-compressed input without liblzma yields the same NULL as opening
unrecognized junk — nothing distinguishes the unavailability failure. -/
theorem c8_xz_unavailable_counterexample :
    arc_filter_xz none ⟨[253, 55, 122, 88, 90, 0], 0, 100, 0⟩ 0 = none ∧
    arc_filter_gzip none ⟨[253, 55, 122, 88, 90, 0], 0, 100, 0⟩ 0 = none ∧
    arc_open_stream none none none (some ⟨[253, 55, 122, 88, 90, 0], 0, 100000, 0⟩) = none ∧
    arc_open_stream none none none (some ⟨[9, 9, 9, 9], 0, 100000, 0⟩) = none ∧
    arc_open_stream none none none (some ⟨[253, 55, 122, 88, 90, 0], 0, 100000, 0⟩) =
      arc_open_stream none none none (some ⟨[9, 9, 9, 9], 0, 100000, 0⟩) := by
  refine ⟨rfl, rfl, ?_, ?_, ?_⟩ <;> decide

/-- Claim C8 (amended): when liblzma is unavailable the xz constructor
reports the unavailability by returning NULL rather than crashing, and
detecting an xz-compressed input then fails, with `arc_open_stream`
returning NULL — but the failure carries no marker distinguishing it
from other construction failures or from an unrecognized format. -/
theorem c8_xz_unavailable_fails (gz bz : Option Decoder) (s f : ArcStream)
    (bl : Nat)
    (ha : 4 ≤ s.data.length - s.pos)
    (hbud : s.consumed + 4 ≤ s.limit)
    (hm : xz_magic ((s.data.drop s.pos).take 4) = true) :
    arc_filter_xz none f bl = none ∧
    detect_format gz bz none s =
      (-1, arc_stream_seek (arc_stream_read s 4).2 s.pos, none) ∧
    arc_open_stream gz bz none (some s) = none := by
  have ht : (arc_stream_read s 4).1 = (s.data.drop s.pos).take 4 :=
    arc_stream_read4_eq_take4 s (by omega)
  have hlen : 2 ≤ (arc_stream_read s 4).1.length := by
    rw [arc_stream_read_fst_length]
    omega
  have hd : detect_format gz bz none s =
      (-1, arc_stream_seek (arc_stream_read s 4).2 s.pos, none) := by
    rw [detect_format_xz_branch gz bz none s hlen (by rw [ht]; exact hm)]
    exact detect_comp_xz_none _ _
  refine ⟨rfl, hd, ?_⟩
  simp only [arc_open_stream, hd]
  norm_num

/-- Witness for the amended C8 at a concrete xz-compressed input. -/
theorem c8_xz_unavailable_fails_witness :
    arc_filter_xz none ⟨[1, 2], 0, 10, 0⟩ 7 = none ∧
    detect_format none none none ⟨[253, 55, 122, 88, 90, 0], 0, 100000, 0⟩ =
      (-1, arc_stream_seek
        (arc_stream_read ⟨[253, 55, 122, 88, 90, 0], 0, 100000, 0⟩ 4).2 0, none) ∧
    arc_open_stream none none none (some ⟨[253, 55, 122, 88, 90, 0], 0, 100000, 0⟩) = none :=
  c8_xz_unavailable_fails none none ⟨[253, 55, 122, 88, 90, 0], 0, 100000, 0⟩
    ⟨[1, 2], 0, 10, 0⟩ 7 (by decide) (by decide) (by decide)

/-- Claim C9: every successful `arc_open_path` creates its base stream
with a byte limit of exactly 10 times the file size reported by the
filesystem, the limit is at least 20 (so never zero, the value the
filter layer treats as special), and the cumulative bytes any operation
sequence can ever read through the base stream are bounded by that
limit. -/
theorem c9_base_stream_limit (fs : String → Option (List Nat))
    (gz bz xz : Option Decoder) (p : String) (bytes : List Nat) (r : ArcReader)
    (ops : List StreamOp)
    (hfs : fs p = some bytes)
    (hopen : arc_open_path fs gz bz xz (some p) = some r) :
    (arc_stream_from_fd bytes (bytes.length * 10)).limit = bytes.length * 10 ∧
    20 ≤ bytes.length * 10 ∧
    (run_ops (arc_stream_from_fd bytes (bytes.length * 10)) ops).1.length ≤
      bytes.length * 10 := by
  have hlen2 : 2 ≤ bytes.length := by
    by_contra hcon
    have hd := detect_format_too_short gz bz xz
      (arc_stream_from_fd bytes (bytes.length * 10))
      (by simp [arc_stream_from_fd]; omega)
    simp only [arc_open_path, hfs, hd] at hopen
    exact Option.noConfusion hopen
  refine ⟨rfl, by omega, ?_⟩
  have h := run_ops_yield_bound ops (arc_stream_from_fd bytes (bytes.length * 10))
    (by simp [arc_stream_from_fd])
  simpa [arc_stream_from_fd] using h

/-- Witness for C9 at a concrete legacy tar file that opens
successfully. -/
theorem c9_base_stream_limit_witness :
    (arc_stream_from_fd (List.replicate 516 97)
      ((List.replicate 516 (97 : Nat)).length * 10)).limit =
      (List.replicate 516 (97 : Nat)).length * 10 ∧
    20 ≤ (List.replicate 516 (97 : Nat)).length * 10 ∧
    (run_ops (arc_stream_from_fd (List.replicate 516 97)
      ((List.replicate 516 (97 : Nat)).length * 10)) [StreamOp.readOp 100000]).1.length ≤
      (List.replicate 516 (97 : Nat)).length * 10 :=
  c9_base_stream_limit (fun _ => some (List.replicate 516 97)) none none none "a"
    (List.replicate 516 97) ⟨0, ⟨List.replicate 516 97, 0, 5160, 516⟩⟩
    [StreamOp.readOp 100000] rfl (by decide)

end CupidArchive
